import Mathlib

/-!
Shallow embedding of the `intelux/serial` PLM command layer (`src/old/plm/plm.go`)
and its HTTP facade (`src/unnamed/part_000`).

The PLM command surface is modelled as functions over an explicit device trace:
a `Dev` carries the scripted outcomes of the upcoming `MarshalRequest` calls
(`ws`) and `UnmarshalResponse` calls (`rs`), a log of the requests actually
written (`log`), and a counter of `token.Close` calls (`closes`).  Each model
function mirrors the Go control flow line by line; Go's `defer device.Close()`
becomes a single `closeDevice` applied to the final state of the method body.
-/

namespace Insteon

/-- A 3-byte Insteon device identity (`Identity` in the Go source). -/
structure Identity where
  b0 : Nat
  b1 : Nat
  b2 : Nat
deriving DecidableEq, Repr

/-- Big-endian numeric value of an identity, used for ordering. -/
def Identity.num (i : Identity) : Nat := i.b0 * 65536 + i.b1 * 256 + i.b2

/-- The 2-byte `(cmd1, cmd2)` command pair carried by standard/extended messages. -/
structure CommandBytes where
  cmd1 : Nat
  cmd2 : Nat
deriving DecidableEq, Repr

/-- A 14-byte user-data block; the zero value of Go's `UserData` array is 14 zero bytes. -/
def zeroUserData : List Nat := List.replicate 14 0

/-- Modelled from the spec: the `Extended` bit of the message-flags byte
(`MessageFlagExtended` is referenced by `plm.go` but defined outside `src/`).
Only the facts that it is a flag value distinct from `0` matter here. -/
def MessageFlagExtended : Nat := 16

/-- Modelled from the spec: the `Beep` command bytes; scenario 2 of the spec
shows the wire bytes `30 00`. -/
def CommandBytesBeep : CommandBytes := ⟨0x30, 0x00⟩

/-- Modelled from the spec: the `StatusRequest` command bytes.  The constant's
value is not under `src/`; no claim depends on it. -/
def CommandBytesStatusRequest : CommandBytes := ⟨0x19, 0x00⟩

/-- Modelled from the spec: the `GetDeviceInfo` command bytes.  The constant's
value is not under `src/`; no claim depends on it. -/
def CommandBytesGetDeviceInfo : CommandBytes := ⟨0x2E, 0x00⟩

/-- Modelled from the spec: the `SetDeviceInfo` command bytes.  The constant's
value is not under `src/`; no claim depends on it. -/
def CommandBytesSetDeviceInfo : CommandBytes := ⟨0x2E, 0x01⟩

/-- An all-link database record: flags, group, identity and 3 bytes of link data. -/
structure AllLinkRecord where
  flags : Nat
  group : Nat
  id : Identity
  linkData : Nat × Nat × Nat
deriving DecidableEq, Repr

/-- Modelled from the spec: the ordering used by `sort.Sort` on
`AllLinkRecordList` (its `Less` method is not under `src/`); the spec orders
records by `(group, id)` ascending with identities compared big-endian. -/
def AllLinkRecord.le (a b : AllLinkRecord) : Prop :=
  a.group < b.group ∨ (a.group = b.group ∧ a.id.num ≤ b.id.num)

instance (a b : AllLinkRecord) : Decidable (AllLinkRecord.le a b) := by
  unfold AllLinkRecord.le; infer_instance

instance : IsTotal AllLinkRecord AllLinkRecord.le where
  total a b := by
    unfold AllLinkRecord.le
    rcases Nat.lt_trichotomy a.group b.group with h | h | h
    · exact Or.inl (Or.inl h)
    · rcases Nat.le_total a.id.num b.id.num with h2 | h2
      · exact Or.inl (Or.inr ⟨h, h2⟩)
      · exact Or.inr (Or.inr ⟨h.symm, h2⟩)
    · exact Or.inr (Or.inl h)

instance : IsTrans AllLinkRecord AllLinkRecord.le where
  trans a b c hab hbc := by
    unfold AllLinkRecord.le at *
    rcases hab with h1 | ⟨e1, l1⟩
    · rcases hbc with h2 | ⟨e2, _⟩
      · exact Or.inl (h1.trans h2)
      · exact Or.inl (e2 ▸ h1)
    · rcases hbc with h2 | ⟨e2, l2⟩
      · exact Or.inl (e1 ▸ h2)
      · exact Or.inr ⟨e1.trans e2, l1.trans l2⟩

/-- `sort.Sort(records)`: sort the enumerated records by `(group, id)` ascending. -/
def sortRecords (l : List AllLinkRecord) : List AllLinkRecord :=
  List.insertionSort AllLinkRecord.le l

/-- The `IMInfo` block returned by `GetInfo`. -/
structure IMInfo where
  id : Identity
  category : Nat
  subcategory : Nat
  firmwareVersion : Nat
deriving DecidableEq, Repr

/-- Errors a primitive call can produce.  `commandFailure` is the distinguished
`ErrCommandFailure`; `canceled` / `deadlineExceeded` model `ctx.Err()`;
`mismatch` totalizes a scripted response of the wrong frame type; `scriptEnd`
totalizes an exhausted script; `other` covers any remaining transport error. -/
inductive Err where
  | commandFailure
  | canceled
  | deadlineExceeded
  | mismatch
  | scriptEnd
  | other (n : Nat)
deriving DecidableEq, Repr

/-- A successfully decoded response frame, carrying the fields the command
layer actually reads. -/
inductive Resp where
  | sendMsg
  | stdMsg (cmd1 cmd2 : Nat)
  | extMsg (userData : List Nat)
  | imInfo (info : IMInfo)
  | firstAllLink
  | nextAllLink
  | allLinkRecord (r : AllLinkRecord)
deriving DecidableEq, Repr

/-- The fields of Go's `SendStandardOrExtendedMessageRequest`. -/
structure SendMessageRequest where
  target : Identity
  hopsLeft : Nat
  maxHops : Nat
  flags : Nat
  commandBytes : CommandBytes
  userData : List Nat
deriving DecidableEq, Repr

/-- A request frame written by `MarshalRequest`. -/
inductive Request where
  | getIMInfo
  | sendMessage (r : SendMessageRequest)
  | getFirstAllLinkRecord
  | getNextAllLinkRecord
deriving DecidableEq, Repr

/-- The device-interaction state threaded through every modelled method. -/
structure Dev where
  ws : List (Option Err)
  rs : List (Except Err Resp)
  log : List Request
  closes : Nat
deriving Repr

/-- `MarshalRequest(device, req)`: consumes the next scripted write outcome and
logs the request that was written. -/
def marshalRequest (req : Request) (d : Dev) : Option Err × Dev :=
  match d.ws with
  | [] => (some .scriptEnd, { d with log := d.log ++ [req] })
  | o :: rest => (o, { d with ws := rest, log := d.log ++ [req] })

/-- `UnmarshalResponse(device, &r)`: consumes the next scripted read outcome. -/
def unmarshalResponse (d : Dev) : Except Err Resp × Dev :=
  match d.rs with
  | [] => (.error .scriptEnd, d)
  | o :: rest => (o, { d with rs := rest })

/-- `token.Close()` (via `defer device.Close()` or `Acquire`'s expiry path). -/
def closeDevice (d : Dev) : Dev := { d with closes := d.closes + 1 }

/-- Read expecting a `SendStandardOrExtendedMessageResponse`. -/
def readSendMsg (d : Dev) : Except Err Unit × Dev :=
  match unmarshalResponse d with
  | (.ok .sendMsg, d) => (.ok (), d)
  | (.ok _, d) => (.error .mismatch, d)
  | (.error e, d) => (.error e, d)

/-- Read expecting a `StandardMessageReceivedResponse`; yields its command bytes. -/
def readStdMsg (d : Dev) : Except Err (Nat × Nat) × Dev :=
  match unmarshalResponse d with
  | (.ok (.stdMsg c1 c2), d) => (.ok (c1, c2), d)
  | (.ok _, d) => (.error .mismatch, d)
  | (.error e, d) => (.error e, d)

/-- Read expecting an `ExtendedMessageReceivedResponse`; yields its user data. -/
def readExtMsg (d : Dev) : Except Err (List Nat) × Dev :=
  match unmarshalResponse d with
  | (.ok (.extMsg ud), d) => (.ok ud, d)
  | (.ok _, d) => (.error .mismatch, d)
  | (.error e, d) => (.error e, d)

/-- Read expecting a `GetIMInfoResponse`. -/
def readIMInfo (d : Dev) : Except Err IMInfo × Dev :=
  match unmarshalResponse d with
  | (.ok (.imInfo i), d) => (.ok i, d)
  | (.ok _, d) => (.error .mismatch, d)
  | (.error e, d) => (.error e, d)

/-- Read expecting a `GetFirstAllLinkRecordResponse`. -/
def readFirstAllLink (d : Dev) : Except Err Unit × Dev :=
  match unmarshalResponse d with
  | (.ok .firstAllLink, d) => (.ok (), d)
  | (.ok _, d) => (.error .mismatch, d)
  | (.error e, d) => (.error e, d)

/-- Read expecting a `GetNextAllLinkRecordResponse`. -/
def readNextAllLink (d : Dev) : Except Err Unit × Dev :=
  match unmarshalResponse d with
  | (.ok .nextAllLink, d) => (.ok (), d)
  | (.ok _, d) => (.error .mismatch, d)
  | (.error e, d) => (.error e, d)

/-- Read expecting an `AllLinkRecordResponse`; yields the record. -/
def readAllLinkRecord (d : Dev) : Except Err AllLinkRecord × Dev :=
  match unmarshalResponse d with
  | (.ok (.allLinkRecord r), d) => (.ok r, d)
  | (.ok _, d) => (.error .mismatch, d)
  | (.error e, d) => (.error e, d)

/-- `Acquire(ctx)`: `acq = none` models the token becoming ready; `acq = some e`
models `ctx.Done()` firing first, in which case the token is closed and the
context's error is returned. -/
def acquire (acq : Option Err) (d : Dev) : Except Err Unit × Dev :=
  match acq with
  | none => (.ok (), d)
  | some e => (.error e, closeDevice d)

/-- `sendStandardMessage`: writes a `SendStandardOrExtendedMessageRequest` with
`HopsLeft: 2, MaxHops: 3, Flags: 0` and the given command bytes, then reads one
`SendStandardOrExtendedMessageResponse`. -/
def sendStandardMessage (target : Identity) (commandBytes : CommandBytes) (d : Dev) :
    Except Err Unit × Dev :=
  match marshalRequest (.sendMessage ⟨target, 2, 3, 0, commandBytes, zeroUserData⟩) d with
  | (some e, d) => (.error e, d)
  | (none, d) =>
    match readSendMsg d with
    | (.error e, d) => (.error e, d)
    | (.ok _, d) => (.ok (), d)

/-- `sendExtendedMessage`: as `sendStandardMessage` but with
`Flags: MessageFlagExtended` and the given user data. -/
def sendExtendedMessage (target : Identity) (commandBytes : CommandBytes)
    (userData : List Nat) (d : Dev) : Except Err Unit × Dev :=
  match marshalRequest
      (.sendMessage ⟨target, 2, 3, MessageFlagExtended, commandBytes, userData⟩) d with
  | (some e, d) => (.error e, d)
  | (none, d) =>
    match readSendMsg d with
    | (.error e, d) => (.error e, d)
    | (.ok _, d) => (.ok (), d)

/-- Body of `GetInfo` after `Acquire` succeeded: write `GetIMInfoRequest`,
read one `GetIMInfoResponse`. -/
def getInfoBody (d : Dev) : Except Err IMInfo × Dev :=
  match marshalRequest .getIMInfo d with
  | (some e, d) => (.error e, d)
  | (none, d) =>
    match readIMInfo d with
    | (.error e, d) => (.error e, d)
    | (.ok info, d) => (.ok info, d)

/-- `GetInfo(ctx)`. -/
def getInfo (acq : Option Err) (d : Dev) : Except Err IMInfo × Dev :=
  match acquire acq d with
  | (.error e, d) => (.error e, d)
  | (.ok _, d) =>
    let (res, d) := getInfoBody d
    (res, closeDevice d)

/-- How a `LightState` changes: instantly or by ramping. -/
inductive LightStateChange where
  | instant
  | ramp
deriving DecidableEq, Repr

/-- A light state: a level in `[0, 1]` and a change kind. -/
structure LightState where
  level : ℚ
  change : LightStateChange
deriving DecidableEq, Repr

/-- Modelled from the spec: quantisation of a level in `[0, 1]` to a byte,
rounding to nearest (`onLevelToByte` and friends are not under `src/`). -/
def levelToByte (l : ℚ) : Nat := (round (l * 255)).toNat

/-- Modelled from the spec: `LightState.commandBytes()` (not under `src/`):
`Instant` off ↦ `LightOff(0)`, `Instant` on ↦ `LightOnFast(level*255)`,
`Ramp` off ↦ `LightOffFast(0)`, `Ramp` on ↦ `LightOn(level*255)`. -/
def LightState.commandBytes (s : LightState) : CommandBytes :=
  match s.change with
  | .instant => if s.level = 0 then ⟨0x13, 0⟩ else ⟨0x12, levelToByte s.level⟩
  | .ramp => if s.level = 0 then ⟨0x14, 0⟩ else ⟨0x11, levelToByte s.level⟩

/-- `SetLightState(ctx, identity, state)`. -/
def setLightState (acq : Option Err) (target : Identity) (state : LightState) (d : Dev) :
    Except Err Unit × Dev :=
  match acquire acq d with
  | (.error e, d) => (.error e, d)
  | (.ok _, d) =>
    let (res, d) := sendStandardMessage target state.commandBytes d
    (res, closeDevice d)

/-- `Beep(ctx, identity)`. -/
def beep (acq : Option Err) (target : Identity) (d : Dev) : Except Err Unit × Dev :=
  match acquire acq d with
  | (.error e, d) => (.error e, d)
  | (.ok _, d) =>
    let (res, d) := sendStandardMessage target CommandBytesBeep d
    (res, closeDevice d)

/-- Modelled from the spec: linear map of a byte in `[0, 255]` to `[0, 1]`
(`byteToOnLevel` is not under `src/`). -/
def byteToOnLevel (b : Nat) : ℚ := (b : ℚ) / 255

/-- The decoded device-info block. -/
structure DeviceInfo where
  x10HouseCode : Nat
  x10Unit : Nat
  rampRateByte : Nat
  onLevel : ℚ
  ledBrightness : ℚ
deriving DecidableEq, Repr

/-- Modelled from the spec: `deviceInfoFromUserData` (not under `src/`) decodes
the fields at fixed well-known offsets of the 14-byte block; the exact offsets
are not given by the spec and no claim depends on them. -/
def deviceInfoFromUserData (ud : List Nat) : DeviceInfo :=
  { x10HouseCode := ud.getD 4 0
    x10Unit := ud.getD 5 0
    rampRateByte := ud.getD 6 0
    onLevel := byteToOnLevel (ud.getD 7 0)
    ledBrightness := byteToOnLevel (ud.getD 8 0) }

/-- Body of `GetDeviceInfo` after `Acquire` succeeded.  Faithful to the source:
the error of `sendExtendedMessage` is assigned to `err` but never checked
before `err` is reassigned by the next `UnmarshalResponse`, so the method
proceeds to read the ack and the extended reply regardless. -/
def getDeviceInfoBody (target : Identity) (d : Dev) : Except Err DeviceInfo × Dev :=
  match sendExtendedMessage target CommandBytesGetDeviceInfo zeroUserData d with
  | (_, d) =>
    match readStdMsg d with
    | (.error e, d) => (.error e, d)
    | (.ok _, d) =>
      match readExtMsg d with
      | (.error e, d) => (.error e, d)
      | (.ok ud, d) => (.ok (deviceInfoFromUserData ud), d)

/-- `GetDeviceInfo(ctx, identity)`. -/
def getDeviceInfo (acq : Option Err) (target : Identity) (d : Dev) :
    Except Err DeviceInfo × Dev :=
  match acquire acq d with
  | (.error e, d) => (.error e, d)
  | (.ok _, d) =>
    let (res, d) := getDeviceInfoBody target d
    (res, closeDevice d)

/-- Modelled from the spec: `rampRateToByte` (not under `src/`) maps a duration
to one of 32 table steps; the table's values are not given by the spec, so the
duration argument is abstracted to a step index clamped to `[0, 31]`.  No claim
depends on the mapping itself. -/
def rampRateToByte (steps : Nat) : Nat := min steps 31

/-- Modelled from the spec: `onLevelToByte` (not under `src/`), linear in
`[0, 255]`, rounding to nearest. -/
def onLevelToByte (l : ℚ) : Nat := levelToByte l

/-- Modelled from the spec: `ledBrightnessToByte` (not under `src/`), linear in
`[0, 255]`, rounding to nearest. -/
def ledBrightnessToByte (l : ℚ) : Nat := levelToByte l

/-- `SetDeviceRampRate(ctx, identity, rampRate)`: user data carries selector
`0x05` at index 1 and the encoded ramp rate at index 2. -/
def setDeviceRampRate (acq : Option Err) (target : Identity) (rampRate : Nat) (d : Dev) :
    Except Err Unit × Dev :=
  match acquire acq d with
  | (.error e, d) => (.error e, d)
  | (.ok _, d) =>
    let userData := (zeroUserData.set 1 0x05).set 2 (rampRateToByte rampRate)
    let (res, d) := sendExtendedMessage target CommandBytesSetDeviceInfo userData d
    (res, closeDevice d)

/-- `SetDeviceOnLevel(ctx, identity, level)`: selector `0x06` at index 1, the
encoded level at index 2. -/
def setDeviceOnLevel (acq : Option Err) (target : Identity) (level : ℚ) (d : Dev) :
    Except Err Unit × Dev :=
  match acquire acq d with
  | (.error e, d) => (.error e, d)
  | (.ok _, d) =>
    let userData := (zeroUserData.set 1 0x06).set 2 (onLevelToByte level)
    let (res, d) := sendExtendedMessage target CommandBytesSetDeviceInfo userData d
    (res, closeDevice d)

/-- `SetDeviceLEDBrightness(ctx, identity, level)`: selector `0x07` at index 1,
the encoded level at index 2. -/
def setDeviceLEDBrightness (acq : Option Err) (target : Identity) (level : ℚ) (d : Dev) :
    Except Err Unit × Dev :=
  match acquire acq d with
  | (.error e, d) => (.error e, d)
  | (.ok _, d) =>
    let userData := (zeroUserData.set 1 0x07).set 2 (ledBrightnessToByte level)
    let (res, d) := sendExtendedMessage target CommandBytesSetDeviceInfo userData d
    (res, closeDevice d)

/-- `SetDeviceX10Address(ctx, identity, houseCode, unit)`: selector `0x04` at
index 1, the house code at index 2, the unit at index 3. -/
def setDeviceX10Address (acq : Option Err) (target : Identity)
    (x10HouseCode x10Unit : Nat) (d : Dev) : Except Err Unit × Dev :=
  match acquire acq d with
  | (.error e, d) => (.error e, d)
  | (.ok _, d) =>
    let userData := ((zeroUserData.set 1 0x04).set 2 x10HouseCode).set 3 x10Unit
    let (res, d) := sendExtendedMessage target CommandBytesSetDeviceInfo userData d
    (res, closeDevice d)

/-- The enumeration loop of `GetAllLinkRecords`: read one `AllLinkRecord`,
append it, write `GetNextAllLinkRecordRequest`, read the next-response; a
`commandFailure` on that read breaks the loop.  The fuel argument only bounds
the recursion: each iteration consumes at least one scripted read, so calling
with fuel `d.rs.length` never exhausts the fuel before the script. -/
def getAllLinkLoop : Nat → Dev → List AllLinkRecord →
    Except Err (List AllLinkRecord) × Dev
  | 0, d, _ => (.error .scriptEnd, d)
  | fuel + 1, d, records =>
    match readAllLinkRecord d with
    | (.error e, d) => (.error e, d)
    | (.ok r, d) =>
      let records := records ++ [r]
      match marshalRequest .getNextAllLinkRecord d with
      | (some e, d) => (.error e, d)
      | (none, d) =>
        match readNextAllLink d with
        | (.error .commandFailure, d) => (.ok records, d)
        | (.error e, d) => (.error e, d)
        | (.ok _, d) => getAllLinkLoop fuel d records

/-- Body of `GetAllLinkRecords` after `Acquire` succeeded: write
`GetFirstAllLinkRecordRequest`; a `commandFailure` reply means an empty
database (`records, nil` with `records = nil`); otherwise run the enumeration
loop and sort the result. -/
def getAllLinkRecordsBody (d : Dev) : Except Err (List AllLinkRecord) × Dev :=
  match marshalRequest .getFirstAllLinkRecord d with
  | (some e, d) => (.error e, d)
  | (none, d) =>
    match readFirstAllLink d with
    | (.error .commandFailure, d) => (.ok [], d)
    | (.error e, d) => (.error e, d)
    | (.ok _, d) =>
      match getAllLinkLoop d.rs.length d [] with
      | (.error e, d) => (.error e, d)
      | (.ok records, d) => (.ok (sortRecords records), d)

/-- `GetAllLinkRecords(ctx)`. -/
def getAllLinkRecords (acq : Option Err) (d : Dev) :
    Except Err (List AllLinkRecord) × Dev :=
  match acquire acq d with
  | (.error e, d) => (.error e, d)
  | (.ok _, d) =>
    let (res, d) := getAllLinkRecordsBody d
    (res, closeDevice d)

/-- Body of `GetDeviceStatus` after `Acquire` succeeded: send a standard
`StatusRequest`, then read one `StandardMessageReceivedResponse` and return its
`CommandBytes[1]` (cmd2) mapped through `byteToOnLevel`. -/
def getDeviceStatusBody (target : Identity) (d : Dev) : Except Err ℚ × Dev :=
  match sendStandardMessage target CommandBytesStatusRequest d with
  | (.error e, d) => (.error e, d)
  | (.ok _, d) =>
    match readStdMsg d with
    | (.error e, d) => (.error e, d)
    | (.ok (_, cmd2), d) => (.ok (byteToOnLevel cmd2), d)

/-- `GetDeviceStatus(ctx, identity)`. -/
def getDeviceStatus (acq : Option Err) (target : Identity) (d : Dev) :
    Except Err ℚ × Dev :=
  match acquire acq d with
  | (.error e, d) => (.error e, d)
  | (.ok _, d) =>
    let (res, d) := getDeviceStatusBody target d
    (res, closeDevice d)

/-! ## HTTP facade (`src/unnamed/part_000`)

The handlers are modelled as pure functions of the request environment: the
route-variable parse/lookup result, whether the request has a body, the
Content-Type header value, the outcome of the JSON decoder on the body, and
the outcome of the PLM call per device identity.  The output records the HTTP
status written, the JSON body written (handlers echo a value through
`handleValue`), and the device identities the PLM operation was applied to,
in call order. -/

/-- Drop leading space characters. -/
def dropLeadingSpaces : List Char → List Char
  | [] => []
  | c :: cs => if c = ' ' then dropLeadingSpaces cs else c :: cs

/-- Trim spaces on both ends. -/
def trimSpaces (l : List Char) : List Char :=
  ((dropLeadingSpaces l.reverse).reverse |> dropLeadingSpaces)

/-- Models Go's `mime.ParseMediaType` on the inputs the facade meets: the media
type is the part before any `;`, space-trimmed and ASCII-lowercased, and an
empty media type is the error `mime: no media type`.  (Parameter parsing and
token validation, which the facade never relies on, are not modelled.) -/
def parseMediaType (v : String) : Except Unit String :=
  let base := (trimSpaces (v.toList.takeWhile (fun c => c ≠ ';'))).map Char.toLower
  if base.isEmpty then .error () else .ok (String.mk base)

/-- `decodeValue(w, r, value)`: returns the decoded value, or the HTTP status
written on failure.  `hasBody = false` models `r.Body == nil`; `jsonResult`
models the outcome of `json.NewDecoder(r.Body).Decode(value)`. -/
def decodeValue {α : Type} (hasBody : Bool) (contentType : String)
    (jsonResult : Option α) : Except Nat α :=
  if hasBody = false then .error 400
  else
    match parseMediaType contentType with
    | .error _ => .error 400
    | .ok mediatype =>
      let mediatype := if mediatype = "" then "application/json" else mediatype
      if mediatype = "application/json" then
        match jsonResult with
        | none => .error 400
        | some v => .ok v
      else .error 400

/-- A configuration device: primary identity plus slave identities. -/
structure ConfigurationDevice where
  id : Identity
  slaveDeviceIDs : List Identity
deriving DecidableEq, Repr

/-- What a set-handler produced: the HTTP status written, the value encoded as
the JSON response body (if any), and the identities the PLM operation was
applied to, in call order. -/
structure FacadeResult (α : Type) where
  status : Nat
  body : Option α
  applied : List Identity
deriving DecidableEq, Repr

/-- `handleSetDeviceState` (`PUT /plm/device/{id}/state`): parse the id (404 on
failure), decode a `LightState` body, call `SetDeviceState`, and on success
echo the decoded state with status 200. -/
def handleSetDeviceState (idParse : Option Identity) (hasBody : Bool)
    (contentType : String) (jsonResult : Option LightState)
    (setResult : Identity → Option Err) : FacadeResult LightState :=
  match idParse with
  | none => ⟨404, none, []⟩
  | some id =>
    match decodeValue hasBody contentType jsonResult with
    | .error s => ⟨s, none, []⟩
    | .ok state =>
      match setResult id with
      | some _ => ⟨500, none, [id]⟩
      | none => ⟨200, some state, [id]⟩

/-- `handleSetDeviceInfo` (`PUT /plm/device/{id}/info`): same shape with a
`DeviceInfo` body. -/
def handleSetDeviceInfo (idParse : Option Identity) (hasBody : Bool)
    (contentType : String) (jsonResult : Option DeviceInfo)
    (setResult : Identity → Option Err) : FacadeResult DeviceInfo :=
  match idParse with
  | none => ⟨404, none, []⟩
  | some id =>
    match decodeValue hasBody contentType jsonResult with
    | .error s => ⟨s, none, []⟩
    | .ok info =>
      match setResult id with
      | some _ => ⟨500, none, [id]⟩
      | none => ⟨200, some info, [id]⟩

/-- `handleAPISetDeviceState` (`PUT /api/device/{device}/state`): look up the
alias (404 on failure), decode, apply to the primary (500 on failure, no slave
touched), then best-effort to each slave in declaration order, and echo the
decoded state with status 200. -/
def handleAPISetDeviceState (lookup : Option ConfigurationDevice) (hasBody : Bool)
    (contentType : String) (jsonResult : Option LightState)
    (setResult : Identity → Option Err) : FacadeResult LightState :=
  match lookup with
  | none => ⟨404, none, []⟩
  | some device =>
    match decodeValue hasBody contentType jsonResult with
    | .error s => ⟨s, none, []⟩
    | .ok state =>
      match setResult device.id with
      | some _ => ⟨500, none, [device.id]⟩
      | none => ⟨200, some state, device.id :: device.slaveDeviceIDs⟩

/-- `handleAPISetDeviceInfo` (`PUT /api/device/{device}/info`): same shape with
a `DeviceInfo` body. -/
def handleAPISetDeviceInfo (lookup : Option ConfigurationDevice) (hasBody : Bool)
    (contentType : String) (jsonResult : Option DeviceInfo)
    (setResult : Identity → Option Err) : FacadeResult DeviceInfo :=
  match lookup with
  | none => ⟨404, none, []⟩
  | some device =>
    match decodeValue hasBody contentType jsonResult with
    | .error s => ⟨s, none, []⟩
    | .ok info =>
      match setResult device.id with
      | some _ => ⟨500, none, [device.id]⟩
      | none => ⟨200, some info, device.id :: device.slaveDeviceIDs⟩

/-! ## Helper lemmas -/

theorem marshalRequest_closes (q : Request) (d : Dev) :
    ((marshalRequest q d).2).closes = d.closes := by
  obtain ⟨ws, rs, log, c⟩ := d
  cases ws <;> rfl

theorem readSendMsg_closes (d : Dev) : ((readSendMsg d).2).closes = d.closes := by
  obtain ⟨ws, rs, log, c⟩ := d
  cases rs with
  | nil => rfl
  | cons r rs =>
    cases r with
    | error e => rfl
    | ok v => cases v <;> rfl

theorem sendStandardMessage_closes (t : Identity) (cb : CommandBytes) (d : Dev) :
    ((sendStandardMessage t cb d).2).closes = d.closes := by
  obtain ⟨ws, rs, log, c⟩ := d
  cases ws with
  | nil => rfl
  | cons o ws =>
    cases o with
    | some e => rfl
    | none =>
      cases rs with
      | nil => rfl
      | cons r rs =>
        cases r with
        | error e => rfl
        | ok v => cases v <;> rfl

theorem sendExtendedMessage_closes (t : Identity) (cb : CommandBytes)
    (ud : List Nat) (d : Dev) : ((sendExtendedMessage t cb ud d).2).closes = d.closes := by
  obtain ⟨ws, rs, log, c⟩ := d
  cases ws with
  | nil => rfl
  | cons o ws =>
    cases o with
    | some e => rfl
    | none =>
      cases rs with
      | nil => rfl
      | cons r rs =>
        cases r with
        | error e => rfl
        | ok v => cases v <;> rfl

theorem getInfoBody_closes (d : Dev) : ((getInfoBody d).2).closes = d.closes := by
  obtain ⟨ws, rs, log, c⟩ := d
  cases ws with
  | nil => rfl
  | cons o ws =>
    cases o with
    | some e => rfl
    | none =>
      cases rs with
      | nil => rfl
      | cons r rs =>
        cases r with
        | error e => rfl
        | ok v => cases v <;> rfl

theorem readStdMsg_closes (d : Dev) : ((readStdMsg d).2).closes = d.closes := by
  obtain ⟨ws, rs, log, c⟩ := d
  cases rs with
  | nil => rfl
  | cons r rs =>
    cases r with
    | error e => rfl
    | ok v => cases v <;> rfl

theorem readExtMsg_closes (d : Dev) : ((readExtMsg d).2).closes = d.closes := by
  obtain ⟨ws, rs, log, c⟩ := d
  cases rs with
  | nil => rfl
  | cons r rs =>
    cases r with
    | error e => rfl
    | ok v => cases v <;> rfl

theorem getDeviceInfoBody_closes (t : Identity) (d : Dev) :
    ((getDeviceInfoBody t d).2).closes = d.closes := by
  unfold getDeviceInfoBody
  rcases hs : sendExtendedMessage t CommandBytesGetDeviceInfo zeroUserData d with ⟨res1, d1⟩
  have h1 : d1.closes = d.closes := by
    have h := sendExtendedMessage_closes t CommandBytesGetDeviceInfo zeroUserData d
    rw [hs] at h; exact h
  dsimp only
  rcases h2s : readStdMsg d1 with ⟨res2, d2⟩
  have h2 : d2.closes = d1.closes := by
    have h := readStdMsg_closes d1
    rw [h2s] at h; exact h
  rcases res2 with e | v
  · dsimp only; omega
  · dsimp only
    rcases h3s : readExtMsg d2 with ⟨res3, d3⟩
    have h3 : d3.closes = d2.closes := by
      have h := readExtMsg_closes d2
      rw [h3s] at h; exact h
    rcases res3 with e | ud <;> · dsimp only; omega

theorem getDeviceStatusBody_closes (t : Identity) (d : Dev) :
    ((getDeviceStatusBody t d).2).closes = d.closes := by
  unfold getDeviceStatusBody
  rcases hs : sendStandardMessage t CommandBytesStatusRequest d with ⟨res1, d1⟩
  have h1 : d1.closes = d.closes := by
    have h := sendStandardMessage_closes t CommandBytesStatusRequest d
    rw [hs] at h; exact h
  rcases res1 with e | u
  · dsimp only; omega
  · dsimp only
    rcases h2s : readStdMsg d1 with ⟨res2, d2⟩
    have h2 : d2.closes = d1.closes := by
      have h := readStdMsg_closes d1
      rw [h2s] at h; exact h
    rcases res2 with e | v
    · dsimp only; omega
    · rcases v with ⟨c1, c2⟩
      dsimp only; omega

theorem getAllLinkLoop_closes (fuel : Nat) :
    ∀ (d : Dev) (acc : List AllLinkRecord),
      ((getAllLinkLoop fuel d acc).2).closes = d.closes := by
  induction fuel with
  | zero => intro d acc; rfl
  | succ fuel ih =>
    intro d acc
    obtain ⟨ws, rs, log, c⟩ := d
    cases rs with
    | nil => rfl
    | cons r rs =>
      cases r with
      | error e => rfl
      | ok v =>
        cases v with
        | allLinkRecord rec =>
          cases ws with
          | nil => rfl
          | cons o ws =>
            cases o with
            | some e => rfl
            | none =>
              cases rs with
              | nil => rfl
              | cons r2 rs =>
                cases r2 with
                | error e => cases e <;> rfl
                | ok v2 =>
                  cases v2 with
                  | nextAllLink =>
                    simpa [getAllLinkLoop, readAllLinkRecord, unmarshalResponse,
                      marshalRequest, readNextAllLink] using
                      ih ⟨ws, rs, (log ++ [Request.getNextAllLinkRecord]), c⟩
                        (acc ++ [rec])
                  | sendMsg => rfl
                  | stdMsg c1 c2 => rfl
                  | extMsg ud => rfl
                  | imInfo i => rfl
                  | firstAllLink => rfl
                  | allLinkRecord r3 => rfl
        | sendMsg => rfl
        | stdMsg c1 c2 => rfl
        | extMsg ud => rfl
        | imInfo i => rfl
        | firstAllLink => rfl
        | nextAllLink => rfl

theorem getAllLinkRecordsBody_closes (d : Dev) :
    ((getAllLinkRecordsBody d).2).closes = d.closes := by
  obtain ⟨ws, rs, log, c⟩ := d
  cases ws with
  | nil => rfl
  | cons o ws =>
    cases o with
    | some e => rfl
    | none =>
      cases rs with
      | nil => rfl
      | cons r rs =>
        cases r with
        | error e => cases e <;> rfl
        | ok v =>
          cases v with
          | firstAllLink =>
            have h := getAllLinkLoop_closes rs.length
              ⟨ws, rs, log ++ [Request.getFirstAllLinkRecord], c⟩ []
            rcases hl : getAllLinkLoop rs.length
                ⟨ws, rs, log ++ [Request.getFirstAllLinkRecord], c⟩ [] with ⟨res, d1⟩
            rw [hl] at h
            rcases res with e | recs
            · simpa [getAllLinkRecordsBody, marshalRequest, readFirstAllLink,
                unmarshalResponse, hl] using h
            · simpa [getAllLinkRecordsBody, marshalRequest, readFirstAllLink,
                unmarshalResponse, hl] using h
          | sendMsg => rfl
          | stdMsg c1 c2 => rfl
          | extMsg ud => rfl
          | imInfo i => rfl
          | nextAllLink => rfl
          | allLinkRecord r3 => rfl

/-- The scripted read outcomes of a clean enumeration over a nonempty record
list: each record is delivered, each `GetNext` request is answered `ok` except
the one after the last record, which is answered with command failure. -/
def cleanLoopScript : List AllLinkRecord → List (Except Err Resp)
  | [] => []
  | [r] => [.ok (.allLinkRecord r), .error .commandFailure]
  | r :: rest => .ok (.allLinkRecord r) :: .ok .nextAllLink :: cleanLoopScript rest

theorem cleanLoopScript_length (r : AllLinkRecord) (recs : List AllLinkRecord) :
    (cleanLoopScript (r :: recs)).length = recs.length + (recs.length + 1) + 1 := by
  induction recs generalizing r with
  | nil => rfl
  | cons r2 rest ih =>
    have h : cleanLoopScript (r :: r2 :: rest) =
        .ok (.allLinkRecord r) :: .ok .nextAllLink :: cleanLoopScript (r2 :: rest) := rfl
    rw [h]
    simp only [List.length_cons, ih r2]
    omega

theorem getAllLinkLoop_cleanScript (recs : List AllLinkRecord) :
    ∀ (r : AllLinkRecord) (k : Nat) (acc : List AllLinkRecord)
      (l : List Request) (c : Nat),
    getAllLinkLoop (recs.length + k + 1)
        ⟨List.replicate (recs.length + 1) none, cleanLoopScript (r :: recs), l, c⟩ acc =
      (.ok (acc ++ r :: recs),
       ⟨[], [], l ++ List.replicate (recs.length + 1) .getNextAllLinkRecord, c⟩) := by
  induction recs with
  | nil =>
    intro r k acc l c
    rfl
  | cons r2 rest ih =>
    intro r k acc l c
    have hfuel : (r2 :: rest).length + k + 1 = (rest.length + k + 1) + 1 := by
      simp only [List.length_cons]; omega
    rw [hfuel]
    have hscript : cleanLoopScript (r :: r2 :: rest) =
        .ok (.allLinkRecord r) :: .ok .nextAllLink :: cleanLoopScript (r2 :: rest) := rfl
    rw [hscript]
    have hstep : getAllLinkLoop ((rest.length + k + 1) + 1)
        ⟨List.replicate ((r2 :: rest).length + 1) none,
         .ok (.allLinkRecord r) :: .ok .nextAllLink :: cleanLoopScript (r2 :: rest), l, c⟩ acc =
        getAllLinkLoop (rest.length + k + 1)
          ⟨List.replicate (rest.length + 1) none, cleanLoopScript (r2 :: rest),
           l ++ [.getNextAllLinkRecord], c⟩ (acc ++ [r]) := rfl
    rw [hstep, ih r2 k (acc ++ [r]) (l ++ [Request.getNextAllLinkRecord]) c]
    simp [List.append_assoc, List.replicate_succ]

/-! Run lemmas: after a successful acquisition, each command method runs its
body and closes the token exactly once, mirroring `defer device.Close()`. -/

theorem getInfo_run (d : Dev) :
    getInfo none d = ((getInfoBody d).1, closeDevice (getInfoBody d).2) := by
  unfold getInfo
  dsimp only [acquire]

theorem setLightState_run (t : Identity) (s : LightState) (d : Dev) :
    setLightState none t s d =
      ((sendStandardMessage t s.commandBytes d).1,
       closeDevice (sendStandardMessage t s.commandBytes d).2) := by
  unfold setLightState
  dsimp only [acquire]

theorem beep_run (t : Identity) (d : Dev) :
    beep none t d =
      ((sendStandardMessage t CommandBytesBeep d).1,
       closeDevice (sendStandardMessage t CommandBytesBeep d).2) := by
  unfold beep
  dsimp only [acquire]

theorem getDeviceInfo_run (t : Identity) (d : Dev) :
    getDeviceInfo none t d =
      ((getDeviceInfoBody t d).1, closeDevice (getDeviceInfoBody t d).2) := by
  unfold getDeviceInfo
  dsimp only [acquire]

theorem setDeviceRampRate_run (t : Identity) (v : Nat) (d : Dev) :
    setDeviceRampRate none t v d =
      ((sendExtendedMessage t CommandBytesSetDeviceInfo
          ((zeroUserData.set 1 0x05).set 2 (rampRateToByte v)) d).1,
       closeDevice (sendExtendedMessage t CommandBytesSetDeviceInfo
          ((zeroUserData.set 1 0x05).set 2 (rampRateToByte v)) d).2) := by
  unfold setDeviceRampRate
  dsimp only [acquire]

theorem setDeviceOnLevel_run (t : Identity) (v : ℚ) (d : Dev) :
    setDeviceOnLevel none t v d =
      ((sendExtendedMessage t CommandBytesSetDeviceInfo
          ((zeroUserData.set 1 0x06).set 2 (onLevelToByte v)) d).1,
       closeDevice (sendExtendedMessage t CommandBytesSetDeviceInfo
          ((zeroUserData.set 1 0x06).set 2 (onLevelToByte v)) d).2) := by
  unfold setDeviceOnLevel
  dsimp only [acquire]

theorem setDeviceLEDBrightness_run (t : Identity) (v : ℚ) (d : Dev) :
    setDeviceLEDBrightness none t v d =
      ((sendExtendedMessage t CommandBytesSetDeviceInfo
          ((zeroUserData.set 1 0x07).set 2 (ledBrightnessToByte v)) d).1,
       closeDevice (sendExtendedMessage t CommandBytesSetDeviceInfo
          ((zeroUserData.set 1 0x07).set 2 (ledBrightnessToByte v)) d).2) := by
  unfold setDeviceLEDBrightness
  dsimp only [acquire]

theorem setDeviceX10Address_run (t : Identity) (hc u : Nat) (d : Dev) :
    setDeviceX10Address none t hc u d =
      ((sendExtendedMessage t CommandBytesSetDeviceInfo
          (((zeroUserData.set 1 0x04).set 2 hc).set 3 u) d).1,
       closeDevice (sendExtendedMessage t CommandBytesSetDeviceInfo
          (((zeroUserData.set 1 0x04).set 2 hc).set 3 u) d).2) := by
  unfold setDeviceX10Address
  dsimp only [acquire]

theorem getAllLinkRecords_run (d : Dev) :
    getAllLinkRecords none d =
      ((getAllLinkRecordsBody d).1, closeDevice (getAllLinkRecordsBody d).2) := by
  unfold getAllLinkRecords
  dsimp only [acquire]

theorem getDeviceStatus_run (t : Identity) (d : Dev) :
    getDeviceStatus none t d =
      ((getDeviceStatusBody t d).1, closeDevice (getDeviceStatusBody t d).2) := by
  unfold getDeviceStatus
  dsimp only [acquire]

theorem getAllLinkRecordsBody_clean (r : AllLinkRecord) (recs : List AllLinkRecord) :
    getAllLinkRecordsBody
        ⟨List.replicate (recs.length + 2) none,
         .ok .firstAllLink :: cleanLoopScript (r :: recs), [], 0⟩ =
      (.ok (sortRecords (r :: recs)),
       ⟨[], [], Request.getFirstAllLinkRecord ::
          List.replicate (recs.length + 1) Request.getNextAllLinkRecord, 0⟩) := by
  have hrep : List.replicate (recs.length + 2) (none : Option Err) =
      none :: List.replicate (recs.length + 1) none := rfl
  have hloop : getAllLinkLoop (cleanLoopScript (r :: recs)).length
      ⟨List.replicate (recs.length + 1) none, cleanLoopScript (r :: recs),
       [Request.getFirstAllLinkRecord], 0⟩ [] =
      (.ok (([] : List AllLinkRecord) ++ r :: recs),
       ⟨[], [], [Request.getFirstAllLinkRecord] ++
          List.replicate (recs.length + 1) Request.getNextAllLinkRecord, 0⟩) := by
    rw [cleanLoopScript_length]
    exact getAllLinkLoop_cleanScript recs r (recs.length + 1) []
      [Request.getFirstAllLinkRecord] 0
  simp only [getAllLinkRecordsBody, hrep, marshalRequest, readFirstAllLink,
    unmarshalResponse, List.nil_append]
  rw [hloop]
  simp

/-- Claim C1: every run of `GetAllLinkRecords` either sees a command-failure
reply to `GetFirstAllLinkRecord` and returns the empty list with no error, or
reads one `AllLinkRecord` per iteration, sends a `GetNextAllLinkRecord` after
each, stops when a next-request is answered with command failure, and returns
exactly the records read, sorted ascending by `(group, id)`: the first
conjunct is the command-failure-on-first path; the second runs a clean
enumeration of an arbitrary nonempty record list and returns its sort; the
last two state that `sortRecords` is a permutation of its input sorted by the
`(group, id)` order. -/
theorem getAllLinkRecords_spec :
    (∀ (w : List (Option Err)) (t : List (Except Err Resp)) (l : List Request) (c : Nat),
      getAllLinkRecords none ⟨none :: w, .error .commandFailure :: t, l, c⟩ =
        (.ok [], ⟨w, t, l ++ [.getFirstAllLinkRecord], c + 1⟩))
  ∧ (∀ (r : AllLinkRecord) (recs : List AllLinkRecord),
      getAllLinkRecords none
          ⟨List.replicate (recs.length + 2) none,
           .ok .firstAllLink :: cleanLoopScript (r :: recs), [], 0⟩ =
        (.ok (sortRecords (r :: recs)),
         ⟨[], [], .getFirstAllLinkRecord ::
            List.replicate (recs.length + 1) .getNextAllLinkRecord, 1⟩))
  ∧ (∀ rs : List AllLinkRecord, (sortRecords rs).Perm rs)
  ∧ (∀ rs : List AllLinkRecord, List.Sorted AllLinkRecord.le (sortRecords rs)) := by
  refine ⟨?_, ?_, ?_, ?_⟩
  · intro w t l c
    rfl
  · intro r recs
    rw [getAllLinkRecords_run, getAllLinkRecordsBody_clean r recs]
    rfl
  · intro rs
    exact List.perm_insertionSort AllLinkRecord.le rs
  · intro rs
    exact List.sorted_insertionSort AllLinkRecord.le rs

/-- A concrete device identity used in closed evaluations. -/
def devA : Identity := ⟨0x11, 0x22, 0x33⟩

/-- A concrete 14-byte user-data block used in closed evaluations. -/
def udSample : List Nat := [0, 0, 0, 0, 7, 8, 9, 10, 11, 0, 0, 0, 0, 0]

/-- Claim C2 (code bug): `GetDeviceInfo` assigns the error of
`sendExtendedMessage` to `err` but never checks it before `err` is reassigned,
so on a run where the send fails with a transport error (`other 7`) while the
two subsequent reads succeed, the method returns the decoded device info with
no error instead of surfacing the send error. -/
theorem getDeviceInfo_ignores_send_error :
    getDeviceInfo none devA
        ⟨[some (.other 7)], [.ok (.stdMsg 0 0), .ok (.extMsg udSample)], [], 0⟩ =
      (.ok (deviceInfoFromUserData udSample),
       ⟨[], [],
        [.sendMessage ⟨devA, 2, 3, MessageFlagExtended,
          CommandBytesGetDeviceInfo, zeroUserData⟩], 1⟩) := by
  rfl

/-- Claim C3 counterexample: on a clean run, the single message `Beep` writes
is a `SendStandardOrExtendedMessageRequest` with `Flags = 0` — not
`MessageFlagExtended` — and the zero user data of a standard send, refuting
the claim that `Beep` sends an extended (Extended-flag, user-data-appended)
message. -/
theorem beep_sends_standard_counterexample :
    (beep none devA ⟨[none], [.ok .sendMsg], [], 0⟩).2.log =
      [.sendMessage ⟨devA, 2, 3, 0, CommandBytesBeep, zeroUserData⟩]
    ∧ (0 : Nat) ≠ MessageFlagExtended := by
  exact ⟨rfl, by decide⟩

/-- Claim C3 (amended): `Beep(id)` sends a single standard (Flags `0`, no
Extended bit, zero user data) ack-eliciting message carrying the `Beep`
command bytes to the target, reads exactly one `SendMsgResponse`, and returns
its success or failure: the first conjunct is the success path, the second
shows a failed response read (including a NAK's `commandFailure`) being
returned as the method's error. -/
theorem beep_spec :
    (∀ (t : Identity) (w : List (Option Err)) (rest : List (Except Err Resp))
        (l : List Request) (c : Nat),
      beep none t ⟨none :: w, .ok .sendMsg :: rest, l, c⟩ =
        (.ok (),
         ⟨w, rest, l ++ [.sendMessage ⟨t, 2, 3, 0, CommandBytesBeep, zeroUserData⟩],
          c + 1⟩))
  ∧ (∀ (t : Identity) (e : Err) (w : List (Option Err))
        (rest : List (Except Err Resp)) (l : List Request) (c : Nat),
      beep none t ⟨none :: w, .error e :: rest, l, c⟩ =
        (.error e,
         ⟨w, rest, l ++ [.sendMessage ⟨t, 2, 3, 0, CommandBytesBeep, zeroUserData⟩],
          c + 1⟩)) := by
  constructor
  · intro t w rest l c
    rfl
  · intro t e w rest l c
    rfl

/-- Claim C5: `GetDeviceStatus` sends one standard `StatusRequest` message,
reads one `SendMsgResponse`, then one `StandardMessageReceived` frame, and
returns that frame's `cmd2` byte mapped linearly from `[0, 255]` to `[0, 1]`
(the value returned is `cmd2 / 255`, independent of `cmd1`). -/
theorem getDeviceStatus_spec :
    ∀ (t : Identity) (cmd1 cmd2 : Nat) (w : List (Option Err))
      (rest : List (Except Err Resp)) (l : List Request) (c : Nat),
      getDeviceStatus none t
          ⟨none :: w, .ok .sendMsg :: .ok (.stdMsg cmd1 cmd2) :: rest, l, c⟩ =
        (.ok ((cmd2 : ℚ) / 255),
         ⟨w, rest,
          l ++ [.sendMessage ⟨t, 2, 3, 0, CommandBytesStatusRequest, zeroUserData⟩],
          c + 1⟩) := by
  intro t cmd1 cmd2 w rest l c
  rfl

/-- Claim C6: each device-info setter sends exactly one extended
`SetDeviceInfo` message whose user data carries the selector at index 1
(`0x05` ramp rate, `0x06` on level, `0x07` LED brightness, `0x04` X10) and the
encoded value from index 2 on (house code at 2 and unit at 3 for X10), all
other bytes zero, then reads one `SendMsgResponse`.  The last four conjuncts
spell out the full 14-byte payloads. -/
theorem setDeviceInfo_selectors_spec :
    (∀ (t : Identity) (v : Nat) (w : List (Option Err))
        (rest : List (Except Err Resp)) (l : List Request) (c : Nat),
      setDeviceRampRate none t v ⟨none :: w, .ok .sendMsg :: rest, l, c⟩ =
        (.ok (),
         ⟨w, rest, l ++ [.sendMessage ⟨t, 2, 3, MessageFlagExtended,
            CommandBytesSetDeviceInfo,
            (zeroUserData.set 1 0x05).set 2 (rampRateToByte v)⟩], c + 1⟩))
  ∧ (∀ (t : Identity) (v : ℚ) (w : List (Option Err))
        (rest : List (Except Err Resp)) (l : List Request) (c : Nat),
      setDeviceOnLevel none t v ⟨none :: w, .ok .sendMsg :: rest, l, c⟩ =
        (.ok (),
         ⟨w, rest, l ++ [.sendMessage ⟨t, 2, 3, MessageFlagExtended,
            CommandBytesSetDeviceInfo,
            (zeroUserData.set 1 0x06).set 2 (onLevelToByte v)⟩], c + 1⟩))
  ∧ (∀ (t : Identity) (v : ℚ) (w : List (Option Err))
        (rest : List (Except Err Resp)) (l : List Request) (c : Nat),
      setDeviceLEDBrightness none t v ⟨none :: w, .ok .sendMsg :: rest, l, c⟩ =
        (.ok (),
         ⟨w, rest, l ++ [.sendMessage ⟨t, 2, 3, MessageFlagExtended,
            CommandBytesSetDeviceInfo,
            (zeroUserData.set 1 0x07).set 2 (ledBrightnessToByte v)⟩], c + 1⟩))
  ∧ (∀ (t : Identity) (hc u : Nat) (w : List (Option Err))
        (rest : List (Except Err Resp)) (l : List Request) (c : Nat),
      setDeviceX10Address none t hc u ⟨none :: w, .ok .sendMsg :: rest, l, c⟩ =
        (.ok (),
         ⟨w, rest, l ++ [.sendMessage ⟨t, 2, 3, MessageFlagExtended,
            CommandBytesSetDeviceInfo,
            ((zeroUserData.set 1 0x04).set 2 hc).set 3 u⟩], c + 1⟩))
  ∧ (∀ v : Nat, (zeroUserData.set 1 0x05).set 2 (rampRateToByte v) =
      [0, 0x05, rampRateToByte v, 0, 0, 0, 0, 0, 0, 0, 0, 0, 0, 0])
  ∧ (∀ v : ℚ, (zeroUserData.set 1 0x06).set 2 (onLevelToByte v) =
      [0, 0x06, onLevelToByte v, 0, 0, 0, 0, 0, 0, 0, 0, 0, 0, 0])
  ∧ (∀ v : ℚ, (zeroUserData.set 1 0x07).set 2 (ledBrightnessToByte v) =
      [0, 0x07, ledBrightnessToByte v, 0, 0, 0, 0, 0, 0, 0, 0, 0, 0, 0])
  ∧ (∀ hc u : Nat, ((zeroUserData.set 1 0x04).set 2 hc).set 3 u =
      [0, 0x04, hc, u, 0, 0, 0, 0, 0, 0, 0, 0, 0, 0]) := by
  refine ⟨?_, ?_, ?_, ?_, ?_, ?_, ?_, ?_⟩
  · intro t v w rest l c
    rfl
  · intro t v w rest l c
    rfl
  · intro t v w rest l c
    rfl
  · intro t hc u w rest l c
    rfl
  · intro v
    rfl
  · intro v
    rfl
  · intro v
    rfl
  · intro hc u
    rfl

/-- Claim C7: on every run of every command method, the token created by
`Acquire` is closed exactly once — by the deferred close on every path out of
the method when acquisition succeeds, and by `Acquire` itself when it loses to
its deadline (first ten conjuncts: the close counter rises by exactly one for
every acquisition outcome and every script); and an `Acquire` that loses to
the context returns the context's error (last ten conjuncts). -/
theorem commandMethods_close_token_once :
    (∀ (acq : Option Err) (d : Dev), ((getInfo acq d).2).closes = d.closes + 1)
  ∧ (∀ (acq : Option Err) (t : Identity) (s : LightState) (d : Dev),
      ((setLightState acq t s d).2).closes = d.closes + 1)
  ∧ (∀ (acq : Option Err) (t : Identity) (d : Dev),
      ((beep acq t d).2).closes = d.closes + 1)
  ∧ (∀ (acq : Option Err) (t : Identity) (d : Dev),
      ((getDeviceInfo acq t d).2).closes = d.closes + 1)
  ∧ (∀ (acq : Option Err) (t : Identity) (v : Nat) (d : Dev),
      ((setDeviceRampRate acq t v d).2).closes = d.closes + 1)
  ∧ (∀ (acq : Option Err) (t : Identity) (v : ℚ) (d : Dev),
      ((setDeviceOnLevel acq t v d).2).closes = d.closes + 1)
  ∧ (∀ (acq : Option Err) (t : Identity) (v : ℚ) (d : Dev),
      ((setDeviceLEDBrightness acq t v d).2).closes = d.closes + 1)
  ∧ (∀ (acq : Option Err) (t : Identity) (hc u : Nat) (d : Dev),
      ((setDeviceX10Address acq t hc u d).2).closes = d.closes + 1)
  ∧ (∀ (acq : Option Err) (d : Dev),
      ((getAllLinkRecords acq d).2).closes = d.closes + 1)
  ∧ (∀ (acq : Option Err) (t : Identity) (d : Dev),
      ((getDeviceStatus acq t d).2).closes = d.closes + 1)
  ∧ (∀ (e : Err) (d : Dev), (getInfo (some e) d).1 = .error e)
  ∧ (∀ (e : Err) (t : Identity) (s : LightState) (d : Dev),
      (setLightState (some e) t s d).1 = .error e)
  ∧ (∀ (e : Err) (t : Identity) (d : Dev), (beep (some e) t d).1 = .error e)
  ∧ (∀ (e : Err) (t : Identity) (d : Dev), (getDeviceInfo (some e) t d).1 = .error e)
  ∧ (∀ (e : Err) (t : Identity) (v : Nat) (d : Dev),
      (setDeviceRampRate (some e) t v d).1 = .error e)
  ∧ (∀ (e : Err) (t : Identity) (v : ℚ) (d : Dev),
      (setDeviceOnLevel (some e) t v d).1 = .error e)
  ∧ (∀ (e : Err) (t : Identity) (v : ℚ) (d : Dev),
      (setDeviceLEDBrightness (some e) t v d).1 = .error e)
  ∧ (∀ (e : Err) (t : Identity) (hc u : Nat) (d : Dev),
      (setDeviceX10Address (some e) t hc u d).1 = .error e)
  ∧ (∀ (e : Err) (d : Dev), (getAllLinkRecords (some e) d).1 = .error e)
  ∧ (∀ (e : Err) (t : Identity) (d : Dev), (getDeviceStatus (some e) t d).1 = .error e) := by
  refine ⟨?_, ?_, ?_, ?_, ?_, ?_, ?_, ?_, ?_, ?_,
    ?_, ?_, ?_, ?_, ?_, ?_, ?_, ?_, ?_, ?_⟩
  · intro acq d
    cases acq with
    | none => rw [getInfo_run]; simp [closeDevice, getInfoBody_closes]
    | some e => rfl
  · intro acq t s d
    cases acq with
    | none => rw [setLightState_run]; simp [closeDevice, sendStandardMessage_closes]
    | some e => rfl
  · intro acq t d
    cases acq with
    | none => rw [beep_run]; simp [closeDevice, sendStandardMessage_closes]
    | some e => rfl
  · intro acq t d
    cases acq with
    | none => rw [getDeviceInfo_run]; simp [closeDevice, getDeviceInfoBody_closes]
    | some e => rfl
  · intro acq t v d
    cases acq with
    | none => rw [setDeviceRampRate_run]; simp [closeDevice, sendExtendedMessage_closes]
    | some e => rfl
  · intro acq t v d
    cases acq with
    | none => rw [setDeviceOnLevel_run]; simp [closeDevice, sendExtendedMessage_closes]
    | some e => rfl
  · intro acq t v d
    cases acq with
    | none => rw [setDeviceLEDBrightness_run]; simp [closeDevice, sendExtendedMessage_closes]
    | some e => rfl
  · intro acq t hc u d
    cases acq with
    | none => rw [setDeviceX10Address_run]; simp [closeDevice, sendExtendedMessage_closes]
    | some e => rfl
  · intro acq d
    cases acq with
    | none => rw [getAllLinkRecords_run]; simp [closeDevice, getAllLinkRecordsBody_closes]
    | some e => rfl
  · intro acq t d
    cases acq with
    | none => rw [getDeviceStatus_run]; simp [closeDevice, getDeviceStatusBody_closes]
    | some e => rfl
  · intro e d; rfl
  · intro e t s d; rfl
  · intro e t d; rfl
  · intro e t d; rfl
  · intro e t v d; rfl
  · intro e t v d; rfl
  · intro e t v d; rfl
  · intro e t hc u d; rfl
  · intro e d; rfl
  · intro e t d; rfl

/-- Claim C8 (code bug): with the body present, a missing or empty
Content-Type header makes `mime.ParseMediaType` fail (`mime: no media type`),
so `decodeValue` answers 400 instead of treating the body as JSON — the
`case "":` branch of the switch is unreachable.  The remaining conjuncts show
the parts of the claim the code does satisfy: a non-JSON Content-Type and a
JSON decoding failure each yield 400, and a JSON Content-Type (case-insensitive,
with parameters) decodes. -/
theorem decodeValue_contentType_check :
    decodeValue true "" (some (42 : Nat)) = .error 400
  ∧ decodeValue true "text/plain" (some (42 : Nat)) = .error 400
  ∧ decodeValue true "application/json" (none : Option Nat) = .error 400
  ∧ decodeValue true "application/json" (some (42 : Nat)) = .ok 42
  ∧ decodeValue true "Application/JSON; charset=utf-8" (some (42 : Nat)) = .ok 42 := by
  exact ⟨rfl, rfl, rfl, rfl, rfl⟩

/-- Claim C9: for a `PUT` on an alias route, the operation is applied to the
primary device first — if that call fails, the handler answers 500 and no
slave is touched (conjuncts 1 and 3) — and on primary success it is applied
to each slave in declaration order with slave outcomes ignored, answering 200
(conjuncts 2 and 4, for any slave outcome function `f`). -/
theorem apiSetHandlers_primary_then_slaves :
    (∀ (dev : ConfigurationDevice) (st : LightState) (f : Identity → Option Err) (e : Err),
      handleAPISetDeviceState (some dev) true "application/json" (some st)
          (fun i => if i = dev.id then some e else f i) =
        ⟨500, none, [dev.id]⟩)
  ∧ (∀ (dev : ConfigurationDevice) (st : LightState) (f : Identity → Option Err),
      handleAPISetDeviceState (some dev) true "application/json" (some st)
          (fun i => if i = dev.id then none else f i) =
        ⟨200, some st, dev.id :: dev.slaveDeviceIDs⟩)
  ∧ (∀ (dev : ConfigurationDevice) (info : DeviceInfo) (f : Identity → Option Err) (e : Err),
      handleAPISetDeviceInfo (some dev) true "application/json" (some info)
          (fun i => if i = dev.id then some e else f i) =
        ⟨500, none, [dev.id]⟩)
  ∧ (∀ (dev : ConfigurationDevice) (info : DeviceInfo) (f : Identity → Option Err),
      handleAPISetDeviceInfo (some dev) true "application/json" (some info)
          (fun i => if i = dev.id then none else f i) =
        ⟨200, some info, dev.id :: dev.slaveDeviceIDs⟩) := by
  have hjsonS : ∀ (st : LightState),
      decodeValue true "application/json" (some st) = .ok st := fun _ => rfl
  have hjsonI : ∀ (info : DeviceInfo),
      decodeValue true "application/json" (some info) = .ok info := fun _ => rfl
  refine ⟨?_, ?_, ?_, ?_⟩
  · intro dev st f e
    simp [handleAPISetDeviceState, hjsonS st]
  · intro dev st f
    simp [handleAPISetDeviceState, hjsonS st]
  · intro dev info f e
    simp [handleAPISetDeviceInfo, hjsonI info]
  · intro dev info f
    simp [handleAPISetDeviceInfo, hjsonI info]

/-- Claim C10: on a successful `PUT` of device state or info, on both the
`/plm` and `/api` routes, the 200 response body is the very value decoded from
the request (the echoed input), not anything re-read from the device — the
handlers' body output equals the decoded value for every possible input
value. -/
theorem setHandlers_echo_decoded_value :
    (∀ (id : Identity) (st : LightState),
      handleSetDeviceState (some id) true "application/json" (some st)
          (fun _ => none) = ⟨200, some st, [id]⟩)
  ∧ (∀ (id : Identity) (info : DeviceInfo),
      handleSetDeviceInfo (some id) true "application/json" (some info)
          (fun _ => none) = ⟨200, some info, [id]⟩)
  ∧ (∀ (dev : ConfigurationDevice) (st : LightState),
      handleAPISetDeviceState (some dev) true "application/json" (some st)
          (fun _ => none) = ⟨200, some st, dev.id :: dev.slaveDeviceIDs⟩)
  ∧ (∀ (dev : ConfigurationDevice) (info : DeviceInfo),
      handleAPISetDeviceInfo (some dev) true "application/json" (some info)
          (fun _ => none) = ⟨200, some info, dev.id :: dev.slaveDeviceIDs⟩) := by
  refine ⟨?_, ?_, ?_, ?_⟩
  · intro id st
    rfl
  · intro id info
    rfl
  · intro dev st
    rfl
  · intro dev info
    rfl

end Insteon
